import Mathlib

/-!
Shallow embedding of the file-watch-and-restart utility in `run.py`.

The script defines a `RestartHandler` (a watchdog `FileSystemEventHandler`)
that owns one child process handle, restarts the child on every `modified`
event whose path ends in `".py"`, and a `__main__` block that wires the
handler to a recursive observer on `"."` and sleeps until a
`KeyboardInterrupt`, at which point it stops the observer.

Process-level effects (spawn, terminate, wait) are modelled by an explicit
`World`: the list of live child pids, a fresh-pid counter, and a trace of
the OS-level actions performed, in order.
-/

namespace PyWatch

/-- Kinds of filesystem events delivered by the watchdog notifier. -/
inductive EventKind where
  | created
  | modified
  | deleted
  | moved
  deriving DecidableEq, Repr

/-- A filesystem change event as delivered to the handler: a source path
and a kind. -/
structure FsEvent where
  src_path : String
  kind : EventKind
  deriving DecidableEq, Repr

/-- OS-level actions the supervisor performs, recorded in order. -/
inductive Action where
  | terminate (pid : Nat)
  | wait (pid : Nat)
  | spawn (pid : Nat) (command : List String)
  | printMsg (msg : String)
  deriving DecidableEq, Repr

/-- The process environment: pids of currently live child processes (in
spawn order), the next fresh pid, and the trace of actions performed. -/
structure World where
  live : List Nat
  nextPid : Nat
  trace : List Action
  deriving DecidableEq, Repr

/-- The environment before the script runs: no child process yet. -/
def World.init : World := { live := [], nextPid := 1, trace := [] }

/-- `subprocess.Popen(command, shell=True)`: spawns a fresh child process
and returns its handle (modelled by its pid). -/
def World.popen (w : World) (command : List String) : Nat × World :=
  (w.nextPid,
   { live := w.live ++ [w.nextPid],
     nextPid := w.nextPid + 1,
     trace := w.trace ++ [Action.spawn w.nextPid command] })

/-- `process.terminate()` followed by `process.wait()`: sends the
termination signal and blocks until the process has exited, so the pid is
no longer live afterwards. -/
def World.terminateWait (w : World) (pid : Nat) : World :=
  { live := w.live.filter (fun q => q != pid),
    nextPid := w.nextPid,
    trace := w.trace ++ [Action.terminate pid, Action.wait pid] }

/-- `RestartHandler`: the stored command (set once in `__init__` and never
reassigned) and the current child-process handle (`self.process`, `None`
before the first spawn). -/
structure RestartHandler where
  command : List String
  process : Option Nat
  deriving DecidableEq, Repr

/-- `RestartHandler.restart`:
```python
def restart(self):
    if self.process:
        self.process.terminate()
        self.process.wait()
    self.process = subprocess.Popen(self.command, shell=True)
``` -/
def RestartHandler.restart (h : RestartHandler) (w : World) :
    RestartHandler × World :=
  match h.process with
  | some pid =>
      let w1 := w.terminateWait pid
      let r := w1.popen h.command
      ({ h with process := some r.1 }, r.2)
  | none =>
      let r := w.popen h.command
      ({ h with process := some r.1 }, r.2)

/-- `RestartHandler.__init__(command)`: stores the command, sets
`self.process = None`, and immediately calls `self.restart()`. -/
def RestartHandler.init (command : List String) (w : World) :
    RestartHandler × World :=
  RestartHandler.restart { command := command, process := none } w

/-- The suffix `on_modified` filters on: the literal `".py"` at line 21 of
`run.py`. -/
def watchedSuffix : String := ".py"

/-- Python's `s.endswith(t)`: `t` is a suffix of `s`. Stated on the
character lists so that it evaluates on concrete strings. -/
def strEndsWith (s t : String) : Bool :=
  decide (s.data.reverse.take t.data.length = t.data.reverse)

/-- `RestartHandler.on_modified`:
```python
def on_modified(self, event):
    if event.src_path.endswith(".py"):
        print(...)
        self.restart()
``` -/
def RestartHandler.on_modified (h : RestartHandler) (event : FsEvent)
    (w : World) : RestartHandler × World :=
  if strEndsWith event.src_path watchedSuffix then
    let w1 := { w with trace := w.trace ++
      [Action.printMsg ("Restarting due to change in " ++ event.src_path)] }
    h.restart w1
  else
    (h, w)

/-- Event dispatch as watchdog performs it: the handler only overrides
`on_modified`; the base `FileSystemEventHandler` methods for the other
event kinds are no-ops. -/
def RestartHandler.dispatch (h : RestartHandler) (event : FsEvent)
    (w : World) : RestartHandler × World :=
  match event.kind with
  | EventKind.modified => h.on_modified event w
  | _ => (h, w)

/-- Deliver a sequence of filesystem events to the handler, in order. -/
def runEvents (hw : RestartHandler × World) (events : List FsEvent) :
    RestartHandler × World :=
  events.foldl (fun acc e => RestartHandler.dispatch acc.1 e acc.2) hw

/-- `path = "."` in `__main__`: the watched directory. -/
def defaultPath : String := "."

/-- `recursive=True` in the `observer.schedule` call in `__main__`. -/
def defaultRecursive : Bool := true

/-- `[sys.executable, "main.py"]` in `__main__`, parametrised by the
runtime value of `sys.executable`. -/
def defaultCommand (pythonExe : String) : List String :=
  [pythonExe, "main.py"]

/-- The `__main__` block up to `observer.start()`: constructs the handler
(which immediately spawns the child once) with the default command. -/
def startMain (pythonExe : String) : RestartHandler × World :=
  RestartHandler.init (defaultCommand pythonExe) World.init

/-- The full `__main__` runtime state: handler, process environment, and
whether the observer (filesystem notifier) is running. -/
structure MainState where
  handler : RestartHandler
  world : World
  observerRunning : Bool
  deriving DecidableEq, Repr

/-- `__main__` after `observer.start()`: handler constructed, child
spawned once, observer running. -/
def mainStart (pythonExe : String) : MainState :=
  let r := startMain pythonExe
  { handler := r.1, world := r.2, observerRunning := true }

/-- The `KeyboardInterrupt` path of `__main__`: `observer.stop()` then
`observer.join()`. Nothing else happens: in particular the child process
is not terminated. -/
def mainShutdown (s : MainState) : MainState :=
  { s with observerRunning := false }

/-- Outcome vocabulary for `start`: either the supervisor is constructed,
or a `ConfigurationError` is raised. -/
inductive StartOutcome where
  | ok (h : RestartHandler) (w : World)
  | configurationError
  deriving DecidableEq, Repr

/-- `start(command)` as the repository implements it: constructing
`RestartHandler(command)` performs no validation of `command` whatsoever
(there is no emptiness check in `__init__` and no exception raised), so
the outcome is always `ok` with the child spawned once. -/
def start (command : List String) : StartOutcome :=
  let r := RestartHandler.init command World.init
  StartOutcome.ok r.1 r.2

/-- Exceptions the process launcher can raise. -/
inductive PyError where
  | oSError
  deriving DecidableEq, Repr

/-- `subprocess.Popen` in an environment where the spawn itself may raise
`OSError` (`raises` says whether it does at this call). -/
def World.popenE (w : World) (command : List String) (raises : Bool) :
    Except PyError (Nat × World) :=
  if raises then Except.error PyError.oSError
  else Except.ok (w.popen command)

/-- `RestartHandler.restart` in the fallible-spawn environment. The source
body has no `try`/`except`, so an exception from `Popen` propagates out of
`restart` unhandled. -/
def RestartHandler.restartE (h : RestartHandler) (w : World)
    (raises : Bool) : Except PyError (RestartHandler × World) :=
  let w1 := match h.process with
    | some pid => w.terminateWait pid
    | none => w
  match w1.popenE h.command raises with
  | Except.error e => Except.error e
  | Except.ok r => Except.ok ({ h with process := some r.1 }, r.2)

/-- POSIX semantics of `subprocess.Popen(args, shell=True)` when `args` is
a sequence, per the `subprocess` documentation: the process executed is
`["/bin/sh", "-c"] ++ args`, so the first element of `args` is the command
line the shell runs and the remaining elements become positional
parameters of the shell itself, not arguments of the command. -/
def shellExecArgv (command : List String) : List String :=
  ["/bin/sh", "-c"] ++ command

/-- The command line actually executed by the shell under
`Popen(command, shell=True)`: the head of the list (if any). -/
def shellCommandLine (command : List String) : Option String :=
  command.head?

/-- The elements of the list that are handed to the shell as its own
positional parameters (never reaching the executed command line). -/
def shellOwnArgs (command : List String) : List String :=
  command.tail

/-! ## Invariant machinery -/

/-- The supervisor invariant relating the handler's stored handle to the
set of live children: either no handle and no live child, or a handle on
the one live child, whose pid is below the fresh-pid counter. -/
def Inv (h : RestartHandler) (w : World) : Prop :=
  (h.process = none ∧ w.live = []) ∨
  (∃ pid, h.process = some pid ∧ w.live = [pid] ∧ pid < w.nextPid)

/-- Computed form of `restart` when a process handle is held. -/
lemma restart_some (h : RestartHandler) (w : World) (pid : Nat)
    (hp : h.process = some pid) :
    h.restart w =
      ({ h with process := some w.nextPid },
       { live := (w.live.filter (fun q => q != pid)) ++ [w.nextPid],
         nextPid := w.nextPid + 1,
         trace := w.trace ++ [Action.terminate pid, Action.wait pid,
                              Action.spawn w.nextPid h.command] }) := by
  simp [RestartHandler.restart, hp, World.terminateWait, World.popen,
        List.append_assoc]

/-- Computed form of `restart` when no process handle is held. -/
lemma restart_none (h : RestartHandler) (w : World)
    (hp : h.process = none) :
    h.restart w =
      ({ h with process := some w.nextPid },
       { live := w.live ++ [w.nextPid],
         nextPid := w.nextPid + 1,
         trace := w.trace ++ [Action.spawn w.nextPid h.command] }) := by
  simp [RestartHandler.restart, hp, World.popen]

lemma restart_preserves_inv (h : RestartHandler) (w : World)
    (hi : Inv h w) : Inv (h.restart w).1 (h.restart w).2 := by
  rcases hi with ⟨hp, hl⟩ | ⟨pid, hp, hl, hlt⟩
  · rw [restart_none h w hp]
    exact Or.inr ⟨w.nextPid, rfl, by simp [hl], Nat.lt_succ_self _⟩
  · rw [restart_some h w pid hp]
    exact Or.inr ⟨w.nextPid, rfl, by simp [hl], Nat.lt_succ_self _⟩

lemma inv_set_trace (h : RestartHandler) (w : World) (t : List Action)
    (hi : Inv h w) : Inv h { w with trace := t } := by
  rcases hi with ⟨hp, hl⟩ | ⟨pid, hp, hl, hlt⟩
  · exact Or.inl ⟨hp, hl⟩
  · exact Or.inr ⟨pid, hp, hl, hlt⟩

lemma dispatch_preserves_inv (h : RestartHandler) (e : FsEvent)
    (w : World) (hi : Inv h w) :
    Inv (h.dispatch e w).1 (h.dispatch e w).2 := by
  rcases e with ⟨path, kind⟩
  cases kind with
  | modified =>
    by_cases hs : strEndsWith path watchedSuffix
    · have hstep := restart_preserves_inv h
        { w with trace := w.trace ++
            [Action.printMsg ("Restarting due to change in " ++ path)] }
        (inv_set_trace h w _ hi)
      simpa [RestartHandler.dispatch, RestartHandler.on_modified, hs]
        using hstep
    · simpa [RestartHandler.dispatch, RestartHandler.on_modified, hs]
        using hi
  | created => exact hi
  | deleted => exact hi
  | moved => exact hi

lemma runEvents_preserves_inv (events : List FsEvent) :
    ∀ hw : RestartHandler × World, Inv hw.1 hw.2 →
      Inv (runEvents hw events).1 (runEvents hw events).2 := by
  induction events with
  | nil => intro hw hi; exact hi
  | cons e rest ih =>
    intro hw hi
    exact ih (RestartHandler.dispatch hw.1 e hw.2)
      (dispatch_preserves_inv hw.1 e hw.2 hi)

lemma startMain_inv (pythonExe : String) :
    Inv (startMain pythonExe).1 (startMain pythonExe).2 :=
  restart_preserves_inv
    { command := defaultCommand pythonExe, process := none }
    World.init (Or.inl ⟨rfl, rfl⟩)

/-! ## Claim theorems -/

/-- Claim C1: starting the supervisor and delivering any sequence of
filesystem events leaves at most one live child process at every
observation point; moreover whenever a handle is held, `restart` first
terminates that process and waits for its exit, and only then spawns the
next child (as the action trace shows, in order). -/
theorem supervisor_at_most_one_live_child :
    (∀ (pythonExe : String) (events : List FsEvent),
       (runEvents (startMain pythonExe) events).2.live.length ≤ 1) ∧
    (∀ (h : RestartHandler) (w : World) (pid : Nat),
       h.process = some pid →
       (h.restart w).2.trace = w.trace ++
         [Action.terminate pid, Action.wait pid,
          Action.spawn w.nextPid h.command]) := by
  constructor
  · intro pythonExe events
    have hi := runEvents_preserves_inv events (startMain pythonExe)
      (startMain_inv pythonExe)
    rcases hi with ⟨_, hl⟩ | ⟨pid, _, hl, _⟩ <;> simp [hl]
  · intro h w pid hp
    rw [restart_some h w pid hp]

/-- Witness for C1 at a concrete handler and world. -/
theorem supervisor_at_most_one_live_child_witness :
    (RestartHandler.restart { command := ["echo"], process := some 5 }
       { live := [5], nextPid := 6, trace := [] }).2.trace =
      [Action.terminate 5, Action.wait 5, Action.spawn 6 ["echo"]] :=
  supervisor_at_most_one_live_child.2
    { command := ["echo"], process := some 5 }
    { live := [5], nextPid := 6, trace := [] } 5 rfl

/-- Claim C2: `restart` satisfies both case-split postconditions. With a
handle held it terminates that process, waits for it, and spawns exactly
one new child with the stored command; with no handle it performs no
termination and spawns exactly one new child with the stored command. In
both cases the stored command is unchanged. -/
theorem restart_postconditions (h : RestartHandler) (w : World) :
    (∀ pid, h.process = some pid →
       (h.restart w).1.process = some w.nextPid ∧
       (h.restart w).1.command = h.command ∧
       (h.restart w).2.live = (w.live.filter (fun q => q != pid)) ++
         [w.nextPid] ∧
       (h.restart w).2.trace = w.trace ++
         [Action.terminate pid, Action.wait pid,
          Action.spawn w.nextPid h.command]) ∧
    (h.process = none →
       (h.restart w).1.process = some w.nextPid ∧
       (h.restart w).1.command = h.command ∧
       (h.restart w).2.live = w.live ++ [w.nextPid] ∧
       (h.restart w).2.trace = w.trace ++
         [Action.spawn w.nextPid h.command]) := by
  constructor
  · intro pid hp
    rw [restart_some h w pid hp]
    exact ⟨rfl, rfl, rfl, rfl⟩
  · intro hp
    rw [restart_none h w hp]
    exact ⟨rfl, rfl, rfl, rfl⟩

/-- Witness for C2: first `restart` from the no-process state spawns
exactly one child. -/
theorem restart_postconditions_witness :
    (RestartHandler.restart { command := ["echo", "hi"], process := none }
       { live := [], nextPid := 1, trace := [] }).1.process = some 1 ∧
    (RestartHandler.restart { command := ["echo", "hi"], process := none }
       { live := [], nextPid := 1, trace := [] }).1.command =
      ["echo", "hi"] ∧
    (RestartHandler.restart { command := ["echo", "hi"], process := none }
       { live := [], nextPid := 1, trace := [] }).2.live = [1] ∧
    (RestartHandler.restart { command := ["echo", "hi"], process := none }
       { live := [], nextPid := 1, trace := [] }).2.trace =
      [Action.spawn 1 ["echo", "hi"]] :=
  (restart_postconditions { command := ["echo", "hi"], process := none }
    { live := [], nextPid := 1, trace := [] }).2 rfl

/-- Claim C3: a `modified` event whose path ends in `".py"`, delivered
while a child with a fresh-bounded pid is held, triggers exactly one
restart cycle: the old child is terminated and waited for, one new child
is spawned, and the new pid differs from the old one. -/
theorem qualifying_event_restarts (h : RestartHandler) (w : World)
    (e : FsEvent) (pid : Nat)
    (hk : e.kind = EventKind.modified)
    (hs : strEndsWith e.src_path watchedSuffix = true)
    (hp : h.process = some pid)
    (hfresh : pid < w.nextPid) :
    (h.dispatch e w).1.process = some w.nextPid ∧
    w.nextPid ≠ pid ∧
    (h.dispatch e w).2.trace = w.trace ++
      [Action.printMsg ("Restarting due to change in " ++ e.src_path),
       Action.terminate pid, Action.wait pid,
       Action.spawn w.nextPid h.command] := by
  rcases e with ⟨path, kind⟩
  simp only at hk hs
  subst hk
  have hw1 : RestartHandler.dispatch h ⟨path, EventKind.modified⟩ w =
      h.restart { w with trace := w.trace ++
        [Action.printMsg ("Restarting due to change in " ++ path)] } := by
    simp [RestartHandler.dispatch, RestartHandler.on_modified, hs]
  rw [hw1, restart_some h _ pid hp]
  refine ⟨rfl, by omega, ?_⟩
  simp [List.append_assoc]

/-- Witness for C3: the spec scenario event `/tmp/watch/a.py`, kind
`modified`, against a running child with pid 1. -/
theorem qualifying_event_restarts_witness :
    (RestartHandler.dispatch { command := ["echo", "hi"], process := some 1 }
       { src_path := "/tmp/watch/a.py", kind := EventKind.modified }
       { live := [1], nextPid := 2, trace := [] }).1.process = some 2 ∧
    (2 : Nat) ≠ 1 ∧
    (RestartHandler.dispatch { command := ["echo", "hi"], process := some 1 }
       { src_path := "/tmp/watch/a.py", kind := EventKind.modified }
       { live := [1], nextPid := 2, trace := [] }).2.trace =
      [Action.printMsg ("Restarting due to change in " ++ "/tmp/watch/a.py"),
       Action.terminate 1, Action.wait 1, Action.spawn 2 ["echo", "hi"]] :=
  qualifying_event_restarts
    { command := ["echo", "hi"], process := some 1 }
    { live := [1], nextPid := 2, trace := [] }
    { src_path := "/tmp/watch/a.py", kind := EventKind.modified }
    1 rfl (by decide) rfl (by decide)

/-- Claim C4: an event that is not a qualifying event — its kind is not
`modified`, or its path does not end in `".py"` — has no side effect:
handler (including the process handle) and world are both unchanged. -/
theorem non_qualifying_event_no_effect (h : RestartHandler) (e : FsEvent)
    (w : World)
    (hne : e.kind ≠ EventKind.modified ∨
           strEndsWith e.src_path watchedSuffix = false) :
    h.dispatch e w = (h, w) := by
  rcases e with ⟨path, kind⟩
  cases kind with
  | modified =>
    rcases hne with hk | hs
    · exact absurd rfl hk
    · simp only at hs
      simp [RestartHandler.dispatch, RestartHandler.on_modified, hs]
  | created => rfl
  | deleted => rfl
  | moved => rfl

/-- Witness for C4: the spec scenario event `/tmp/watch/a.txt`, kind
`modified`, leaves handler and world untouched. -/
theorem non_qualifying_event_no_effect_witness :
    RestartHandler.dispatch { command := ["echo", "hi"], process := some 1 }
      { src_path := "/tmp/watch/a.txt", kind := EventKind.modified }
      { live := [1], nextPid := 2, trace := [] } =
    ({ command := ["echo", "hi"], process := some 1 },
     { live := [1], nextPid := 2, trace := [] }) :=
  non_qualifying_event_no_effect
    { command := ["echo", "hi"], process := some 1 }
    { src_path := "/tmp/watch/a.txt", kind := EventKind.modified }
    { live := [1], nextPid := 2, trace := [] }
    (Or.inr (by decide))

/-- Claim C5 counterexample: starting with the empty command does not
fail with a `ConfigurationError`; the handler is constructed and one
child (the bare shell invocation) is spawned anyway. -/
theorem start_empty_command_spawns :
    start ([] : List String) =
      StartOutcome.ok { command := [], process := some 1 }
        { live := [1], nextPid := 2, trace := [Action.spawn 1 []] } ∧
    start ([] : List String) ≠ StartOutcome.configurationError :=
  ⟨rfl, by decide⟩

/-- Claim C5 (amended): `start` performs no validation at all: for every
command, the empty sequence included, it never fails with
`ConfigurationError` and immediately spawns the child exactly once. -/
theorem start_never_validates (command : List String) :
    start command =
      StartOutcome.ok { command := command, process := some 1 }
        { live := [1], nextPid := 2,
          trace := [Action.spawn 1 command] } := by
  rfl

/-- Claim C6 counterexample: a spawn failure during a steady-state
restart is not caught: `restart` propagates the `OSError` raised by
`Popen` instead of logging it and keeping the supervisor alive. -/
theorem spawn_failure_uncaught :
    RestartHandler.restartE { command := ["nosuchcmd"], process := some 1 }
      { live := [1], nextPid := 2, trace := [] } true =
    Except.error PyError.oSError := by
  rfl

/-- Claim C6 (amended): whenever `Popen` raises during `restart`, the
exception propagates out of `restart` unhandled — there is no
`try`/`except` in the source, so nothing is caught or logged. -/
theorem spawn_failure_propagates (h : RestartHandler) (w : World) :
    RestartHandler.restartE h w true = Except.error PyError.oSError := by
  cases hp : h.process <;>
    simp [RestartHandler.restartE, World.popenE, hp]

/-- Claim C7 counterexample: after `start` and the interrupt-triggered
shutdown, the observer is stopped but the child process spawned at
startup is still live — shutdown does not terminate it. -/
theorem stop_leaves_child_running :
    (mainShutdown (mainStart "python3")).world.live = [1] ∧
    (mainShutdown (mainStart "python3")).observerRunning = false :=
  ⟨rfl, rfl⟩

/-- Claim C7 (amended): the shutdown path only stops the filesystem
notifier; the child-process world (live set included) and the handler are
untouched, and shutting down twice equals shutting down once. -/
theorem shutdown_stops_observer_only (s : MainState) :
    (mainShutdown s).observerRunning = false ∧
    (mainShutdown s).world = s.world ∧
    (mainShutdown s).handler = s.handler ∧
    mainShutdown (mainShutdown s) = mainShutdown s :=
  ⟨rfl, rfl, rfl, rfl⟩

/-- Claim C8: run with no flags, the configuration takes the documented
defaults: watched directory `"."` (the current working directory),
recursion on, supervised command `[sys.executable, "main.py"]`
(re-invoking the fixed entry-point script), and extension filter `".py"`;
the handler built at startup stores exactly that default command. -/
theorem default_configuration (pythonExe : String) :
    defaultPath = "." ∧
    defaultRecursive = true ∧
    defaultCommand pythonExe = [pythonExe, "main.py"] ∧
    watchedSuffix = ".py" ∧
    (startMain pythonExe).1.command = [pythonExe, "main.py"] :=
  ⟨rfl, rfl, rfl, rfl, rfl⟩

/-- Claim C10: under `shell=True` with a list-valued command, only the
first element becomes the command line the shell executes; the remaining
elements are handed to the shell itself as positional parameters. In
particular the default command executes the bare interpreter, with
`"main.py"` passed to the shell and never to the interpreter. -/
theorem shell_true_drops_arguments :
    (∀ (c : String) (rest : List String),
       shellExecArgv (c :: rest) = ["/bin/sh", "-c", c] ++ rest ∧
       shellCommandLine (c :: rest) = some c ∧
       shellOwnArgs (c :: rest) = rest) ∧
    (∀ pythonExe : String,
       shellExecArgv (defaultCommand pythonExe) =
         ["/bin/sh", "-c", pythonExe, "main.py"] ∧
       shellCommandLine (defaultCommand pythonExe) = some pythonExe ∧
       shellOwnArgs (defaultCommand pythonExe) = ["main.py"]) := by
  constructor
  · intro c rest
    exact ⟨rfl, rfl, rfl⟩
  · intro pythonExe
    exact ⟨rfl, rfl, rfl⟩

end PyWatch
